import Mathlib

/-!
Verification of `repair_blend.py` (Blender File Repair tool).

The development shallowly embeds the repair orchestration engine:

* file contents are byte lists (`Bytes`); a filesystem is a map from path
  strings to optional contents (`none` = missing/unreadable — a read of such a
  path raises in Python, which the source code catches);
* the external codec backends (the `gzip` module and the `zstandard` package)
  are parameters (`Backend`): each codec call either succeeds with the full
  output bytes or raises after having written some partial bytes to its
  target file (`RunOut`);
* one external Blender invocation is summarised by a `ProcResult`: the
  process completed with a return code and captured stdout/stderr, timed out,
  or the launch raised an exception;
* the session `repair_blend_file` is a pure function of the backend, the
  subprocess behaviours, the chosen paths and the initial filesystem,
  returning the final boolean, the final filesystem, the ordered list of
  strategies attempted, and whether the "cannot continue without Blender"
  diagnostic was emitted.
-/

namespace RepairBlend

/-- File contents as a list of byte values. -/
abbrev Bytes := List Nat

/-- A filesystem: paths to optional contents (`none` = absent/unreadable). -/
def Fs := String → Option Bytes

/-- Writing a file (Python `open(p, 'wb')` + full write). -/
def Fs.write (fs : Fs) (p : String) (b : Bytes) : Fs :=
  fun q => if q = p then some b else fs q

/-- Deleting a file (Python `os.unlink`). -/
def Fs.erase (fs : Fs) (p : String) : Fs :=
  fun q => if q = p then none else fs q

theorem Fs.write_self (fs : Fs) (p : String) (b : Bytes) : fs.write p b p = some b := by
  simp [Fs.write]

theorem Fs.write_ne (fs : Fs) (p q : String) (b : Bytes) (h : q ≠ p) :
    fs.write p b q = fs q := by
  simp [Fs.write, h]

theorem Fs.erase_self (fs : Fs) (p : String) : fs.erase p p = none := by
  simp [Fs.erase]

theorem Fs.erase_ne (fs : Fs) (p q : String) (h : q ≠ p) : fs.erase p q = fs q := by
  simp [Fs.erase, h]

/-- The 7-byte uncompressed container signature `b"BLENDER"`. -/
def blenderMagic : Bytes := [0x42, 0x4c, 0x45, 0x4e, 0x44, 0x45, 0x52]

/-- The 4-byte Zstandard magic `28 B5 2F FD`. -/
def zstdMagic : Bytes := [0x28, 0xb5, 0x2f, 0xfd]

/-- The 2-byte Gzip magic `1F 8B`. -/
def gzipMagic : Bytes := [0x1f, 0x8b]

/-- Source `get_compression_type(filepath)`.  The argument is the file's
content (`none` when `open`/`read` raises, which the source catches and turns
into `'unknown'`).  The result mirrors the Python value: `none` = Python
`None` (uncompressed), `some "gzip"`, `some "zstd"`, `some "unknown"`. -/
def get_compression_type (content : Option Bytes) : Option String :=
  match content with
  | none => some "unknown"
  | some bs =>
    let magic := bs.take 4
    if magic.take 2 = gzipMagic then some "gzip"
    else if magic = zstdMagic then some "zstd"
    else if magic.take 4 = [0x42, 0x4c, 0x45, 0x4e] then none
    else some "unknown"

/-- Source `is_blend_file(filepath)`: reads the first 12 bytes; accepts the
`BLENDER` signature, the Gzip magic, or the Zstd magic; read errors are
swallowed into `false`. -/
def is_blend_file (content : Option Bytes) : Bool :=
  match content with
  | none => false
  | some bs =>
    let header := bs.take 12
    if header.take 7 = blenderMagic then true
    else if header.take 2 = gzipMagic then true
    else if header.take 4 = zstdMagic then true
    else false

/-- Source `is_compressed(filepath)`. -/
def is_compressed (content : Option Bytes) : Bool :=
  get_compression_type content = some "gzip" ∨ get_compression_type content = some "zstd"

/-- Boolean prefix test on character lists (needle, haystack). -/
def charsPrefix : List Char → List Char → Bool
  | [], _ => true
  | _ :: _, [] => false
  | a :: as, b :: bs => a == b && charsPrefix as bs

/-- Boolean substring test on character lists (needle, haystack). -/
def charsContain (needle : List Char) : List Char → Bool
  | [] => charsPrefix needle []
  | c :: cs => charsPrefix needle (c :: cs) || charsContain needle cs

/-- Python `needle in hay` on strings (substring containment). -/
def strContains (hay needle : String) : Bool :=
  charsContain needle.data hay.data

/-- Python `str.lstrip('0')`: drop all leading `'0'` characters. -/
def lstrip0 : List Char → List Char
  | [] => []
  | c :: cs => if c = '0' then lstrip0 cs else c :: cs

/-- ASCII decode of one byte (the surrounding code checks `b < 128` first,
mirroring `bytes.decode('ascii')` raising on non-ASCII bytes). -/
def byteChar (b : Nat) : Char := Char.ofNat b

/-- The body of source `get_blend_version` lines 125–130: given the (possibly
decompressed) 12-byte header, check the signature, ASCII-decode bytes 9–11,
and format `f"{major}.{minor}"` with `minor = version[1:3].lstrip('0') or '0'`.
Any raising step (`decode` on a non-ASCII byte, `version[0]` on an empty
slice) is the `except` path, i.e. `none`. -/
def parseVersionHeader (header : Bytes) : Option String :=
  if header.take 7 = blenderMagic then
    let vbytes := (header.drop 9).take 3
    if vbytes.all (fun b => b < 128) then
      match vbytes with
      | [] => none
      | d0 :: rest =>
        let minorChars := lstrip0 (rest.map byteChar)
        let minorStr := if minorChars = [] then "0" else String.mk minorChars
        some (String.mk [byteChar d0] ++ "." ++ minorStr)
    else none
  else none

/-- Outcome of one codec call streaming into a target file: either it wrote
the full output bytes and returned, or it raised — before the target was
opened for writing (`failure none`, target untouched) or after some bytes
were already written (`failure (some written)`). -/
inductive RunOut where
  | success (bytes : Bytes)
  | failure (written : Option Bytes)
deriving DecidableEq

/-- Did the codec call return normally? -/
def RunOut.ok : RunOut → Bool
  | .success _ => true
  | .failure _ => false

/-- Effect of a codec call on the target file. -/
def applyRun (fs : Fs) (target : String) : RunOut → Fs
  | .success b => fs.write target b
  | .failure none => fs
  | .failure (some p) => fs.write target p

/-- The external codec backends: the `gzip` module and (when installed, i.e.
`HAS_ZSTD`) the `zstandard` package.  Each call maps the input file's bytes to
a `RunOut`. -/
structure Backend where
  hasZstd : Bool
  zstdCompress : Bytes → RunOut
  zstdDecompress : Bytes → RunOut
  gzipCompress : Bytes → RunOut
  gzipDecompress : Bytes → RunOut

/-- Source `decompress_blend(input_path, output_path, compression=None)`.
`compressionArg` is the Python argument (`none` = default `None`, in which
case the kind is re-detected from the input file).  Unknown kinds and missing
backends print and return `False`; codec exceptions are caught into `False`
with whatever partial bytes the codec wrote left behind; opening a missing
input raises before the output is opened. -/
def decompress_blend (be : Backend) (fs : Fs) (input output : String)
    (compressionArg : Option String) : Bool × Fs :=
  let compression :=
    if compressionArg = none then get_compression_type (fs input) else compressionArg
  if compression = some "zstd" then
    if be.hasZstd = false then (false, fs)
    else
      match fs input with
      | none => (false, fs)
      | some content =>
        let r := be.zstdDecompress content
        (r.ok, applyRun fs output r)
  else if compression = some "gzip" then
    match fs input with
    | none => (false, fs)
    | some content =>
      let r := be.gzipDecompress content
      (r.ok, applyRun fs output r)
  else (false, fs)

/-- Source `compress_blend(input_path, output_path, compression='zstd')`.
A Zstd request without the backend falls back to Gzip; exceptions are caught
into `False`. -/
def compress_blend (be : Backend) (fs : Fs) (input output : String)
    (compression : Option String) : Bool × Fs :=
  let gzipPath : Bool × Fs :=
    match fs input with
    | none => (false, fs)
    | some content =>
      let r := be.gzipCompress content
      (r.ok, applyRun fs output r)
  if compression = some "zstd" then
    if be.hasZstd then
      match fs input with
      | none => (false, fs)
      | some content =>
        let r := be.zstdCompress content
        (r.ok, applyRun fs output r)
    else gzipPath
  else if compression = some "gzip" then gzipPath
  else (false, fs)

/-- The `finally` idiom `if os.path.exists(p): os.unlink(p)`. -/
def tmpCleanup (fs : Fs) (p : String) : Fs :=
  if (fs p).isSome then fs.erase p else fs

/-- Source `repair_compression(input_path, output_path)` (strategy 1).
`tmp` is the path of the `NamedTemporaryFile` (fresh, created empty).  The
`finally` block removes `tmp` on every exit path of the compressed branch. -/
def repair_compression (be : Backend) (fs : Fs) (input output tmp : String) : Bool × Fs :=
  let compression := get_compression_type (fs input)
  if compression = some "zstd" ∧ be.hasZstd = false then (false, fs)
  else if compression = none ∨ compression = some "unknown" then
    compress_blend be fs input output (some "zstd")
  else
    let fs0 := fs.write tmp []
    let d := decompress_blend be fs0 input tmp compression
    let body : Bool × Fs :=
      if d.1 = false then (false, d.2)
      else if is_blend_file (d.2 tmp) = false then (false, d.2)
      else compress_blend be d.2 tmp output compression
    (body.1, tmpCleanup body.2 tmp)

/-- Behaviour of one `subprocess.run` invocation of Blender: it completed with
a return code and captured streams, it hit the timeout
(`subprocess.TimeoutExpired`, after which the library terminates the child),
or constructing/launching the process raised some other exception. -/
inductive ProcResult where
  | completed (returncode : Int) (stdout stderr : String)
  | timedOut
  | exn (msg : String)
deriving DecidableEq

/-- The value computed by source `run_blender_script` lines 237–249: the
`try` returns `(returncode == 0, stdout + stderr)`; the two `except` arms
return `(False, "Blender process timed out")` and `(False, str(e))`.  Total
by construction — no exception escapes. -/
def run_script_outcome : ProcResult → Bool × String
  | .completed rc out err => (rc == 0, out ++ err)
  | .timedOut => (false, "Blender process timed out")
  | .exn e => (false, e)

/-- Filesystem effect of `run_blender_script`: the temporary script file is
created (written) before the invocation and the `finally` block unlinks it if
it exists — on every exit path. -/
def scriptFsEffect (fs : Fs) (scriptPath scriptText : String) : Fs :=
  let fs1 := fs.write scriptPath (scriptText.data.map Char.toNat)
  if (fs1 scriptPath).isSome then fs1.erase scriptPath else fs1

/-- Source `run_blender_script(blender_path, script, timeout)`. -/
def run_blender_script (fs : Fs) (scriptPath scriptText : String) (res : ProcResult) :
    (Bool × String) × Fs :=
  (run_script_outcome res, scriptFsEffect fs scriptPath scriptText)

/-- Source `repair_with_blender_open` (strategy 2) success value:
`success and "REPAIR_SUCCESS" in output`. -/
def repair_with_blender_open (res : ProcResult) : Bool :=
  let r := run_script_outcome res
  r.1 && strContains r.2 "REPAIR_SUCCESS"

/-- Source `repair_with_append` (strategy 3) success value:
`success and "RECOVERY_SUCCESS" in output`. -/
def repair_with_append (res : ProcResult) : Bool :=
  let r := run_script_outcome res
  r.1 && strContains r.2 "RECOVERY_SUCCESS"

/-- Source `repair_selective_recovery` (strategy 4) success value:
`success and "RECOVERY_SUCCESS" in output`. -/
def repair_selective_recovery (res : ProcResult) : Bool :=
  let r := run_script_outcome res
  r.1 && strContains r.2 "RECOVERY_SUCCESS"

/-- What the external world does during one session: whether a Blender
executable was resolved (`find_blender` probes the real filesystem; we take
its result as a parameter), the behaviour of each of the four possible
Blender invocations, and the bytes (if any) the collaborator saved to the
output path during strategies 2–4. -/
structure SessionEnv where
  blender_path : Option String
  verifyRes : ProcResult
  res2 : ProcResult
  res3 : ProcResult
  res4 : ProcResult
  w2 : Option Bytes
  w3 : Option Bytes
  w4 : Option Bytes

/-- The paths a session touches: the input, the chosen output, strategy 1's
temporary, and the four generated script files (all `NamedTemporaryFile`
names, fresh in reality). -/
structure Paths where
  input : String
  output : String
  tmp : String
  sV : String
  s2p : String
  s3p : String
  s4p : String

/-- Result of a session: the returned boolean, the final filesystem, the
strategies attempted in order, and whether the
"Cannot continue without Blender" diagnostic was printed. -/
structure SessionResult where
  success : Bool
  fs : Fs
  attempted : List Nat
  noBlenderDiag : Bool

/-- The collaborator's save to the output path during an external strategy. -/
def extWrite (fs : Fs) (output : String) : Option Bytes → Fs
  | none => fs
  | some b => fs.write output b

/-- Source `repair_blend_file` lines 548–570: strategies 2, 3, 4 in order,
stopping at the first success. -/
def sessionTail (env : SessionEnv) (P : Paths) (fs : Fs) : SessionResult :=
  let fsA := scriptFsEffect (extWrite fs P.output env.w2) P.s2p "strategy2 script"
  if repair_with_blender_open env.res2 then ⟨true, fsA, [1, 2], false⟩
  else
    let fsB := scriptFsEffect (extWrite fsA P.output env.w3) P.s3p "strategy3 script"
    if repair_with_append env.res3 then ⟨true, fsB, [1, 2, 3], false⟩
    else
      let fsC := scriptFsEffect (extWrite fsB P.output env.w4) P.s4p "strategy4 script"
      if repair_selective_recovery env.res4 then ⟨true, fsC, [1, 2, 3, 4], false⟩
      else ⟨false, fsC, [1, 2, 3, 4], false⟩

/-- Source `repair_blend_file` lines 524–570, after validation and backup:
strategy 1, its verification sub-step when an executable is available, the
"Cannot continue without Blender" early exit, then strategies 2–4. -/
def sessionCore (be : Backend) (env : SessionEnv) (P : Paths) (fs1 : Fs) : SessionResult :=
  let r1 := repair_compression be fs1 P.input P.output P.tmp
  match env.blender_path with
  | some _ =>
    if r1.1 then
      let v := run_blender_script r1.2 P.sV "verify script" env.verifyRes
      if strContains v.1.2 "VERIFY_SUCCESS" then ⟨true, v.2, [1], false⟩
      else sessionTail env P v.2
    else sessionTail env P r1.2
  | none =>
    if r1.1 then ⟨true, r1.2, [1], false⟩
    else ⟨false, r1.2, [1], true⟩

/-- Source `repair_blend_file` lines 496–500: the backup is copied to
`<input>.backup` only when absent. -/
def backupStep (P : Paths) (fs : Fs) (content : Bytes) : Fs :=
  if (fs (P.input ++ ".backup")).isSome then fs
  else fs.write (P.input ++ ".backup") content

/-- Source `repair_blend_file(input_path, output_path, blender_path)`: the
whole session.  Missing input and invalid containers abort before any
strategy; otherwise the backup step runs and the strategy controller takes
over. -/
def repair_blend_file (be : Backend) (env : SessionEnv) (P : Paths) (fs : Fs) :
    SessionResult :=
  match fs P.input with
  | none => ⟨false, fs, [], false⟩
  | some content =>
    if is_blend_file (some content) then
      sessionCore be env P (backupStep P fs content)
    else ⟨false, fs, [], false⟩

/-- `StrategyResult.succeeded` of each strategy as attempted in the session
(the spec's StrategyController model).  Strategy 1's result incorporates the
verification sub-step: per the spec, when an executable is available its
apparent success is provisional and is downgraded by a failed verification
(`VerificationFailed`). -/
def effRes (be : Backend) (env : SessionEnv) (P : Paths) (fs : Fs) : Nat → Bool
  | 1 =>
    (match fs P.input with
     | none => false
     | some content =>
       if is_blend_file (some content) then
         (repair_compression be (backupStep P fs content) P.input P.output P.tmp).1
       else false) &&
    (match env.blender_path with
     | none => true
     | some _ => strContains (run_script_outcome env.verifyRes).2 "VERIFY_SUCCESS")
  | 2 => repair_with_blender_open env.res2
  | 3 => repair_with_append env.res3
  | 4 => repair_selective_recovery env.res4
  | _ => false

/-- Source `get_blend_version(filepath)`: pick the 12-byte header through the
detected compression envelope (absent Zstd backend yields `None`; any codec
or read exception is caught into `None`), then parse it with the logic of
`parseVersionHeader`. -/
def get_blend_version (be : Backend) (content : Option Bytes) : Option String :=
  let compression := get_compression_type content
  let header? : Option Bytes :=
    if compression = some "zstd" then
      if be.hasZstd then
        match content with
        | none => none
        | some c =>
          match be.zstdDecompress c with
          | .success b => some (b.take 12)
          | .failure _ => none
      else none
    else if compression = some "gzip" then
      match content with
      | none => none
      | some c =>
        match be.gzipDecompress c with
        | .success b => some (b.take 12)
        | .failure _ => none
    else
      match content with
      | none => none
      | some c => some (c.take 12)
  match header? with
  | none => none
  | some header => parseVersionHeader header

/-- A concrete backend faithful to the library contract (round-trip identity,
magic-prefixed compressed streams), used to evaluate the model at concrete
inputs. -/
def toyCodec : Backend where
  hasZstd := true
  zstdCompress := fun b => .success (zstdMagic ++ b)
  zstdDecompress := fun b => if b.take 4 = zstdMagic then .success (b.drop 4) else .failure none
  gzipCompress := fun b => .success (gzipMagic ++ b)
  gzipDecompress := fun b => if b.take 2 = gzipMagic then .success (b.drop 2) else .failure none

/-- A backend whose Zstd compressor raises after writing 3 bytes of partial
output (e.g. a disk error mid-stream), otherwise like `toyCodec`. -/
def brokenCodec : Backend where
  hasZstd := true
  zstdCompress := fun _ => .failure (some [1, 2, 3])
  zstdDecompress := fun b => if b.take 4 = zstdMagic then .success (b.drop 4) else .failure none
  gzipCompress := fun _ => .failure (some [1, 2, 3])
  gzipDecompress := fun b => if b.take 2 = gzipMagic then .success (b.drop 2) else .failure none

/-- A 12-byte valid uncompressed container: `BLENDER--400`. -/
def sampleBlend : Bytes := blenderMagic ++ [0x2d, 0x2d, 0x34, 0x30, 0x30]

/-- Standard path assignment for concrete runs. -/
def samplePaths : Paths :=
  ⟨"in.blend", "out.blend", "tmpfile", "scrV", "scr2", "scr3", "scr4"⟩

/-- Paths where the chosen output path is the backup path itself. -/
def clashPaths : Paths :=
  ⟨"in.blend", "in.blend" ++ ".backup", "tmpfile", "scrV", "scr2", "scr3", "scr4"⟩

/-- A filesystem holding only the sample input. -/
def fsInputOnly : Fs := fun q => if q = "in.blend" then some sampleBlend else none

/-- A filesystem holding the sample input and a pre-existing backup `[9, 9]`. -/
def fsWithBackup : Fs :=
  fun q =>
    if q = "in.blend" then some sampleBlend
    else if q = "in.blend" ++ ".backup" then some [9, 9] else none

/-- Environment with no resolvable Blender executable. -/
def envNoBlender : SessionEnv :=
  ⟨none, .timedOut, .timedOut, .timedOut, .timedOut, none, none, none⟩

/-- Environment with an executable where strategy 2 succeeds. -/
def envS2Wins : SessionEnv :=
  ⟨some "blender", .completed 1 "" "", .completed 0 "REPAIR_SUCCESS" "",
   .timedOut, .timedOut, some [7, 7], none, none⟩

theorem byteChar_eq_zero_iff (d : Nat) (h1 : 48 ≤ d) (h2 : d ≤ 57) :
    byteChar d = '0' ↔ d = 48 := by
  interval_cases d <;> decide

/-- Claim C10: `get_compression_type` never raises: when opening or reading
the file fails (content unavailable), the swallowed exception yields
`'unknown'` — never the uncompressed (`None`), Gzip, or Zstd classification. -/
theorem classify_swallows_read_errors :
    get_compression_type none = some "unknown" ∧
    get_compression_type none ≠ none ∧
    get_compression_type none ≠ some "gzip" ∧
    get_compression_type none ≠ some "zstd" := by
  decide

/-- Claim C3 counterexample: the 2-byte file `1F 8B` is shorter than 4 bytes
yet classifies as Gzip, not Unknown. -/
theorem classify_short_cex :
    ([0x1f, 0x8b] : Bytes).length < 4 ∧
    get_compression_type (some [0x1f, 0x8b]) = some "gzip" ∧
    get_compression_type (some [0x1f, 0x8b]) ≠ some "unknown" := by
  decide

/-- Claim C3 (amended): a file shorter than 4 bytes classifies as Unknown and
never faults — unless its first two bytes are exactly the Gzip magic `1F 8B`,
in which case it classifies as Gzip. -/
theorem classify_short_amended (bs : Bytes) (h : bs.length < 4) :
    (bs.take 2 = gzipMagic → get_compression_type (some bs) = some "gzip") ∧
    (bs.take 2 ≠ gzipMagic → get_compression_type (some bs) = some "unknown") := by
  rcases bs with _ | ⟨a, bs⟩
  · constructor <;> intro hg <;> simp_all [get_compression_type, gzipMagic, zstdMagic]
  rcases bs with _ | ⟨b, bs⟩
  · constructor <;> intro hg <;> simp_all [get_compression_type, gzipMagic, zstdMagic]
  rcases bs with _ | ⟨c, bs⟩
  · constructor <;> intro hg <;> simp_all [get_compression_type, gzipMagic, zstdMagic]
  rcases bs with _ | ⟨d, bs⟩
  · constructor <;> intro hg <;> simp_all [get_compression_type, gzipMagic, zstdMagic]
  · exfalso
    simp [List.length_cons] at h
    omega

theorem classify_short_amended_witness :
    get_compression_type (some [0x00]) = some "unknown" ∧
    get_compression_type (some [0x1f, 0x8b, 0x08]) = some "gzip" :=
  ⟨(classify_short_amended [0x00] (by decide)).2 (by decide),
   (classify_short_amended [0x1f, 0x8b, 0x08] (by decide)).1 (by decide)⟩

/-- Claim C5: `run_blender_script` is total — a completed process yields
`(returncode == 0, stdout + stderr)`, a timeout yields the failure outcome
with the timeout text, any launch exception yields `False` with the exception
text — and the temporary script file is gone from the filesystem after it
returns, on every outcome. -/
theorem run_blender_script_total (fs : Fs) (sp st : String) :
    (∀ res, (run_blender_script fs sp st res).2 sp = none) ∧
    (∀ rc out err,
      (run_blender_script fs sp st (.completed rc out err)).1 = ((rc == 0 : Bool), out ++ err)) ∧
    ((run_blender_script fs sp st .timedOut).1 = (false, "Blender process timed out")) ∧
    (∀ m, (run_blender_script fs sp st (.exn m)).1 = (false, m)) := by
  refine ⟨fun res => ?_, fun rc out err => rfl, rfl, fun m => rfl⟩
  simp [run_blender_script, scriptFsEffect, Fs.write, Fs.erase]

theorem sentinel_aux (S : String) (res : ProcResult) :
    ((run_script_outcome res).1 && strContains (run_script_outcome res).2 S) = true ↔
    ∃ out err, res = ProcResult.completed 0 out err ∧ strContains (out ++ err) S = true := by
  cases res with
  | completed rc out err =>
    simp only [run_script_outcome, Bool.and_eq_true, beq_iff_eq]
    constructor
    · rintro ⟨h0, hs⟩
      exact ⟨out, err, by rw [h0], hs⟩
    · rintro ⟨o, e, he, hs⟩
      injection he with h1 h2 h3
      subst h1
      subst h2
      subst h3
      exact ⟨rfl, hs⟩
  | timedOut =>
    simp only [run_script_outcome, Bool.false_and, Bool.false_eq_true, false_iff]
    rintro ⟨o, e, he, -⟩
    exact ProcResult.noConfusion he
  | exn m =>
    simp only [run_script_outcome, Bool.false_and, Bool.false_eq_true, false_iff]
    rintro ⟨o, e, he, -⟩
    exact ProcResult.noConfusion he

/-- Claim C4: for strategies 2, 3 and 4, `succeeded = true` iff the external
process exited with code zero and the strategy's sentinel
(`REPAIR_SUCCESS` for strategy 2, `RECOVERY_SUCCESS` for strategies 3 and 4)
occurs in the combined stdout+stderr text. -/
theorem strategy_sentinel_iff (res : ProcResult) :
    (repair_with_blender_open res = true ↔
      ∃ out err, res = ProcResult.completed 0 out err ∧
        strContains (out ++ err) "REPAIR_SUCCESS" = true) ∧
    (repair_with_append res = true ↔
      ∃ out err, res = ProcResult.completed 0 out err ∧
        strContains (out ++ err) "RECOVERY_SUCCESS" = true) ∧
    (repair_selective_recovery res = true ↔
      ∃ out err, res = ProcResult.completed 0 out err ∧
        strContains (out ++ err) "RECOVERY_SUCCESS" = true) :=
  ⟨sentinel_aux "REPAIR_SUCCESS" res, sentinel_aux "RECOVERY_SUCCESS" res,
   sentinel_aux "RECOVERY_SUCCESS" res⟩

/-- Claim C8: for an uncompressed input starting with the container signature
and three ASCII digits at byte offset 9, `get_blend_version` returns
`"<major>.<minor>"` where major is the first digit and minor is the remaining
two digits with leading zeros stripped, collapsing to `"0"` when empty. -/
theorem extractVersion_format (be : Backend) (b7 b8 d1 d2 d3 : Nat) (rest : Bytes)
    (h1 : 48 ≤ d1 ∧ d1 ≤ 57) (h2 : 48 ≤ d2 ∧ d2 ≤ 57) (h3 : 48 ≤ d3 ∧ d3 ≤ 57) :
    get_blend_version be (some (blenderMagic ++ [b7, b8, d1, d2, d3] ++ rest)) =
      some (String.mk [byteChar d1] ++ "." ++
        (if d2 = 48 then (if d3 = 48 then "0" else String.mk [byteChar d3])
         else String.mk [byteChar d2, byteChar d3])) := by
  obtain ⟨h1a, h1b⟩ := h1
  obtain ⟨h2a, h2b⟩ := h2
  obtain ⟨h3a, h3b⟩ := h3
  have hb1 : d1 < 128 := by omega
  have hb2 : d2 < 128 := by omega
  have hb3 : d3 < 128 := by omega
  by_cases hd2 : d2 = 48 <;> by_cases hd3 : d3 = 48
  · have e2 : byteChar d2 = '0' := (byteChar_eq_zero_iff d2 h2a h2b).2 hd2
    have e3 : byteChar d3 = '0' := (byteChar_eq_zero_iff d3 h3a h3b).2 hd3
    simp [get_blend_version, get_compression_type, parseVersionHeader, blenderMagic,
      gzipMagic, zstdMagic, lstrip0, e2, e3, hd2, hd3, hb1, hb2, hb3]
    simp [show byteChar 48 = '0' from by decide]
  · have e2 : byteChar d2 = '0' := (byteChar_eq_zero_iff d2 h2a h2b).2 hd2
    have e3 : ¬byteChar d3 = '0' := fun hc => hd3 ((byteChar_eq_zero_iff d3 h3a h3b).1 hc)
    simp [get_blend_version, get_compression_type, parseVersionHeader, blenderMagic,
      gzipMagic, zstdMagic, lstrip0, e2, e3, hd2, hd3, hb1, hb2, hb3]
    simp [show byteChar 48 = '0' from by decide]
  · have e2 : ¬byteChar d2 = '0' := fun hc => hd2 ((byteChar_eq_zero_iff d2 h2a h2b).1 hc)
    simp [get_blend_version, get_compression_type, parseVersionHeader, blenderMagic,
      gzipMagic, zstdMagic, lstrip0, e2, hd2, hb1, hb2, hb3]
  · have e2 : ¬byteChar d2 = '0' := fun hc => hd2 ((byteChar_eq_zero_iff d2 h2a h2b).1 hc)
    simp [get_blend_version, get_compression_type, parseVersionHeader, blenderMagic,
      gzipMagic, zstdMagic, lstrip0, e2, hd2, hb1, hb2, hb3]

theorem extractVersion_format_witness :
    get_blend_version toyCodec (some (blenderMagic ++ [0x2d, 0x2d, 52, 48, 48] ++ [])) =
      some "4.0" ∧
    get_blend_version toyCodec (some (blenderMagic ++ [0x2d, 0x2d, 48, 48, 53] ++ [])) =
      some "0.5" := by
  constructor
  · rw [extractVersion_format toyCodec 0x2d 0x2d 52 48 48 [] (by omega) (by omega) (by omega)]
    decide
  · rw [extractVersion_format toyCodec 0x2d 0x2d 48 48 53 [] (by omega) (by omega) (by omega)]
    decide

/-- Claim C9: for any valid uncompressed container payload and either
supported codec (Gzip, or Zstd when the backend is available), compressing to
a file with `compress_blend` and then decompressing that file with
`decompress_blend` (which re-detects the codec from the magic bytes)
reproduces the payload byte-for-byte.  The codec hypotheses are the library
contract of `gzip`/`zstandard`: a successful compression round-trips and its
output starts with the codec's magic. -/
theorem codec_roundtrip (be : Backend) (fs : Fs) (i o d : String) (content cout : Bytes)
    (hin : fs i = some content) (hvabf : is_blend_file (some content) = true) :
    (be.hasZstd = true → be.zstdCompress content = RunOut.success cout →
      cout.take 4 = zstdMagic → be.zstdDecompress cout = RunOut.success content →
      (compress_blend be fs i o (some "zstd")).1 = true ∧
      (decompress_blend be (compress_blend be fs i o (some "zstd")).2 o d none).1 = true ∧
      (decompress_blend be (compress_blend be fs i o (some "zstd")).2 o d none).2 d =
        some content) ∧
    (be.gzipCompress content = RunOut.success cout →
      cout.take 2 = gzipMagic → be.gzipDecompress cout = RunOut.success content →
      (compress_blend be fs i o (some "gzip")).1 = true ∧
      (decompress_blend be (compress_blend be fs i o (some "gzip")).2 o d none).1 = true ∧
      (decompress_blend be (compress_blend be fs i o (some "gzip")).2 o d none).2 d =
        some content) := by
  constructor
  · intro hz hc hm hd
    have hcb : compress_blend be fs i o (some "zstd") = (true, fs.write o cout) := by
      simp [compress_blend, hin, hz, hc, applyRun, RunOut.ok]
    have hout : (fs.write o cout) o = some cout := Fs.write_self fs o cout
    have ht : List.take 2 (List.take 4 cout) = [0x28, 0xb5] := by
      rw [hm]
      decide
    have hctype : get_compression_type (some cout) = some "zstd" := by
      simp only [get_compression_type]
      rw [ht, hm]
      decide
    have hdec : decompress_blend be (fs.write o cout) o d none =
        (true, (fs.write o cout).write d content) := by
      simp [decompress_blend, hout, hctype, hz, hd, applyRun, RunOut.ok]
    rw [hcb]
    simp only [hdec]
    exact ⟨trivial, trivial, Fs.write_self _ d content⟩
  · intro hc hm hd
    have hcb : compress_blend be fs i o (some "gzip") = (true, fs.write o cout) := by
      simp [compress_blend, hin, hc, applyRun, RunOut.ok]
    have hout : (fs.write o cout) o = some cout := Fs.write_self fs o cout
    have ht : List.take 2 (List.take 4 cout) = gzipMagic := by
      rw [List.take_take]
      norm_num
      exact hm
    have hctype : get_compression_type (some cout) = some "gzip" := by
      simp only [get_compression_type]
      rw [ht]
      simp
    have hdec : decompress_blend be (fs.write o cout) o d none =
        (true, (fs.write o cout).write d content) := by
      simp [decompress_blend, hout, hctype, hd, applyRun, RunOut.ok]
    rw [hcb]
    simp only [hdec]
    exact ⟨trivial, trivial, Fs.write_self _ d content⟩

theorem codec_roundtrip_witness :
    (decompress_blend toyCodec
      (compress_blend toyCodec fsInputOnly "in.blend" "out.blend" (some "zstd")).2
      "out.blend" "dec.blend" none).2 "dec.blend" = some sampleBlend ∧
    (decompress_blend toyCodec
      (compress_blend toyCodec fsInputOnly "in.blend" "out.blend" (some "gzip")).2
      "out.blend" "dec.blend" none).2 "dec.blend" = some sampleBlend :=
  ⟨((codec_roundtrip toyCodec fsInputOnly "in.blend" "out.blend" "dec.blend" sampleBlend
      (zstdMagic ++ sampleBlend) (by decide) (by decide)).1
      (by decide) (by decide) (by decide) (by decide)).2.2,
   ((codec_roundtrip toyCodec fsInputOnly "in.blend" "out.blend" "dec.blend" sampleBlend
      (gzipMagic ++ sampleBlend) (by decide) (by decide)).2
      (by decide) (by decide) (by decide)).2.2⟩

theorem applyRun_ne (fs : Fs) (t q : String) (r : RunOut) (h : q ≠ t) :
    applyRun fs t r q = fs q := by
  cases r with
  | success b => exact Fs.write_ne fs t q b h
  | failure w =>
    cases w with
    | none => rfl
    | some p => exact Fs.write_ne fs t q p h

theorem compress_blend_frame (be : Backend) (fs : Fs) (i o : String) (c : Option String)
    (q : String) (h : q ≠ o) : (compress_blend be fs i o c).2 q = fs q := by
  simp only [compress_blend]
  split_ifs <;> cases fs i <;> simp [applyRun_ne _ _ _ _ h]

theorem decompress_blend_frame (be : Backend) (fs : Fs) (i o : String) (c : Option String)
    (q : String) (h : q ≠ o) : (decompress_blend be fs i o c).2 q = fs q := by
  simp only [decompress_blend]
  split_ifs <;> cases fs i <;> simp [applyRun_ne _ _ _ _ h]

theorem tmpCleanup_self (fs : Fs) (p : String) : tmpCleanup fs p p = none := by
  by_cases h : (fs p).isSome
  · simp [tmpCleanup, h, Fs.erase_self]
  · simp only [tmpCleanup, h, if_false]
    exact Option.not_isSome_iff_eq_none.mp h

theorem tmpCleanup_ne (fs : Fs) (p q : String) (h : q ≠ p) : tmpCleanup fs p q = fs q := by
  by_cases h1 : (fs p).isSome <;> simp [tmpCleanup, h1, Fs.erase_ne _ _ _ h]

theorem repair_compression_frame (be : Backend) (fs : Fs) (i o t : String) (q : String)
    (ho : q ≠ o) (ht : q ≠ t) : (repair_compression be fs i o t).2 q = fs q := by
  simp only [repair_compression]
  split_ifs with hA hB h3 h4 <;>
    simp [tmpCleanup_ne _ _ _ ht, compress_blend_frame, decompress_blend_frame,
      Fs.write_ne, ho, ht]

theorem repair_compression_absent (be : Backend) (fs : Fs) (i o t : String) (q : String)
    (ho : q ≠ o) (hq : fs q = none) : (repair_compression be fs i o t).2 q = none := by
  by_cases ht : q = t
  · subst ht
    simp only [repair_compression]
    split_ifs with hA hB h3 h4 <;>
      simp [tmpCleanup_self, compress_blend_frame, ho, hq]
  · rw [repair_compression_frame be fs i o t q ho ht]
    exact hq

theorem scriptFsEffect_ne (fs : Fs) (sp st q : String) (h : q ≠ sp) :
    scriptFsEffect fs sp st q = fs q := by
  simp only [scriptFsEffect]
  split_ifs with h1
  · rw [Fs.erase_ne _ _ _ h]
    exact Fs.write_ne _ _ _ _ h
  · exact Fs.write_ne _ _ _ _ h

theorem scriptFsEffect_absent (fs : Fs) (sp st q : String) (hq : fs q = none) :
    scriptFsEffect fs sp st q = none := by
  by_cases h : q = sp
  · subst h
    simp [scriptFsEffect, Fs.write, Fs.erase]
  · rw [scriptFsEffect_ne fs sp st q h]
    exact hq

theorem extWrite_ne (fs : Fs) (o q : String) (w : Option Bytes) (h : q ≠ o) :
    extWrite fs o w q = fs q := by
  cases w with
  | none => rfl
  | some b => exact Fs.write_ne fs o q b h

theorem backupStep_ne (P : Paths) (fs : Fs) (c : Bytes) (q : String)
    (h : q ≠ P.input ++ ".backup") : backupStep P fs c q = fs q := by
  by_cases h1 : (fs (P.input ++ ".backup")).isSome <;>
    simp [backupStep, h1, Fs.write_ne _ _ _ _ h]

theorem backupStep_self (P : Paths) (fs : Fs) (c : Bytes) :
    backupStep P fs c (P.input ++ ".backup") =
      if (fs (P.input ++ ".backup")).isSome then fs (P.input ++ ".backup") else some c := by
  by_cases h1 : (fs (P.input ++ ".backup")).isSome <;>
    simp [backupStep, h1, Fs.write_self]

theorem sessionTail_frame (env : SessionEnv) (P : Paths) (fs : Fs) (q : String)
    (ho : q ≠ P.output) (h2 : q ≠ P.s2p) (h3 : q ≠ P.s3p) (h4 : q ≠ P.s4p) :
    (sessionTail env P fs).fs q = fs q := by
  simp only [sessionTail]
  split_ifs <;> simp [scriptFsEffect_ne, extWrite_ne, ho, h2, h3, h4]

theorem sessionTail_absent (env : SessionEnv) (P : Paths) (fs : Fs) (q : String)
    (ho : q ≠ P.output) (hq : fs q = none) : (sessionTail env P fs).fs q = none := by
  have hB : scriptFsEffect (extWrite fs P.output env.w2) P.s2p "strategy2 script" q = none :=
    scriptFsEffect_absent _ _ _ _ ((extWrite_ne fs P.output q env.w2 ho).trans hq)
  have hD : scriptFsEffect (extWrite (scriptFsEffect (extWrite fs P.output env.w2) P.s2p
      "strategy2 script") P.output env.w3) P.s3p "strategy3 script" q = none :=
    scriptFsEffect_absent _ _ _ _ ((extWrite_ne _ P.output q env.w3 ho).trans hB)
  have hF : scriptFsEffect (extWrite (scriptFsEffect (extWrite (scriptFsEffect
      (extWrite fs P.output env.w2) P.s2p "strategy2 script") P.output env.w3) P.s3p
      "strategy3 script") P.output env.w4) P.s4p "strategy4 script" q = none :=
    scriptFsEffect_absent _ _ _ _ ((extWrite_ne _ P.output q env.w4 ho).trans hD)
  simp only [sessionTail]
  split_ifs <;> first | exact hB | exact hD | exact hF

theorem sessionCore_frame (be : Backend) (env : SessionEnv) (P : Paths) (fs1 : Fs)
    (q : String) (ho : q ≠ P.output) (ht : q ≠ P.tmp) (hv : q ≠ P.sV) (h2 : q ≠ P.s2p)
    (h3 : q ≠ P.s3p) (h4 : q ≠ P.s4p) : (sessionCore be env P fs1).fs q = fs1 q := by
  rcases hbp : env.blender_path with _ | b <;>
    simp only [sessionCore, hbp, run_blender_script] <;>
    split_ifs <;>
    simp [sessionTail_frame, scriptFsEffect_ne, repair_compression_frame,
      ho, ht, hv, h2, h3, h4]

theorem sessionCore_absent (be : Backend) (env : SessionEnv) (P : Paths) (fs1 : Fs)
    (q : String) (ho : q ≠ P.output) (hq : fs1 q = none) :
    (sessionCore be env P fs1).fs q = none := by
  have h1 := repair_compression_absent be fs1 P.input P.output P.tmp q ho hq
  rcases hbp : env.blender_path with _ | b <;>
    simp only [sessionCore, hbp, run_blender_script] <;>
    split_ifs <;>
    simp [sessionTail_absent, scriptFsEffect_absent, h1, ho, hq]

theorem session_frame (be : Backend) (env : SessionEnv) (P : Paths) (fs : Fs) (q : String)
    (hb : q ≠ P.input ++ ".backup") (ho : q ≠ P.output) (ht : q ≠ P.tmp) (hv : q ≠ P.sV)
    (h2 : q ≠ P.s2p) (h3 : q ≠ P.s3p) (h4 : q ≠ P.s4p) :
    (repair_blend_file be env P fs).fs q = fs q := by
  simp only [repair_blend_file]
  cases hin : fs P.input with
  | none => rfl
  | some c =>
    dsimp only
    split_ifs with hbf
    · rw [sessionCore_frame be env P _ q ho ht hv h2 h3 h4]
      exact backupStep_ne P fs c q hb
    · rfl

theorem session_absent (be : Backend) (env : SessionEnv) (P : Paths) (fs : Fs) (q : String)
    (ho : q ≠ P.output) (hb : q ≠ P.input ++ ".backup") (hq : fs q = none) :
    (repair_blend_file be env P fs).fs q = none := by
  simp only [repair_blend_file]
  cases hin : fs P.input with
  | none => exact hq
  | some c =>
    dsimp only
    split_ifs with hbf
    · exact sessionCore_absent be env P _ q ho ((backupStep_ne P fs c q hb).trans hq)
    · exact hq

theorem ne_backup_self (s : String) : s ≠ s ++ ".backup" := by
  intro h
  have hl := congrArg String.length h
  rw [String.length_append] at hl
  have : (".backup" : String).length = 7 := by decide
  omega

/-- Claim C1: strategies are attempted in the fixed order 1, 2, 3, 4; the
controller advances to strategy N+1 only when strategy N's
`StrategyResult.succeeded` (`effRes`, which for strategy 1 incorporates the
spec's verification sub-step) is false; it stops and reports session success
immediately on the first true; and no strategy is attempted twice or
revisited (the attempted list is always a prefix of `[1, 2, 3, 4]`). -/
theorem strategy_controller_order (be : Backend) (env : SessionEnv) (P : Paths) (fs : Fs) :
    ((repair_blend_file be env P fs).attempted ∈
      [([] : List Nat), [1], [1, 2], [1, 2, 3], [1, 2, 3, 4]]) ∧
    (2 ∈ (repair_blend_file be env P fs).attempted → effRes be env P fs 1 = false) ∧
    (3 ∈ (repair_blend_file be env P fs).attempted → effRes be env P fs 2 = false) ∧
    (4 ∈ (repair_blend_file be env P fs).attempted → effRes be env P fs 3 = false) ∧
    (∀ n, n ∈ (repair_blend_file be env P fs).attempted → effRes be env P fs n = true →
      (repair_blend_file be env P fs).success = true ∧
      (repair_blend_file be env P fs).attempted.getLast? = some n) := by
  cases hin : fs P.input with
  | none => simp [repair_blend_file, hin, effRes]
  | some c =>
    by_cases hbf : is_blend_file (some c) = true
    · rcases hbp : env.blender_path with _ | b
      · by_cases h1 : (repair_compression be (backupStep P fs c) P.input P.output P.tmp).1 =
            true <;>
          simp [repair_blend_file, sessionCore, hin, hbf, hbp, h1, effRes, List.getLast?]
      · by_cases h1 : (repair_compression be (backupStep P fs c) P.input P.output P.tmp).1 =
            true <;>
        by_cases hv : strContains (run_script_outcome env.verifyRes).2 "VERIFY_SUCCESS" =
            true <;>
        by_cases b2 : repair_with_blender_open env.res2 = true <;>
        by_cases b3 : repair_with_append env.res3 = true <;>
        by_cases b4 : repair_selective_recovery env.res4 = true <;>
          simp [repair_blend_file, sessionCore, sessionTail, run_blender_script, hin, hbf,
            hbp, h1, hv, b2, b3, b4, effRes, List.getLast?]
    · simp [repair_blend_file, hin, hbf, effRes]

theorem strategy_controller_order_witness :
    effRes brokenCodec envS2Wins samplePaths fsInputOnly 1 = false ∧
    (repair_blend_file brokenCodec envS2Wins samplePaths fsInputOnly).success = true ∧
    (repair_blend_file brokenCodec envS2Wins samplePaths fsInputOnly).attempted.getLast? =
      some 2 :=
  ⟨(strategy_controller_order brokenCodec envS2Wins samplePaths fsInputOnly).2.1 (by decide),
   ((strategy_controller_order brokenCodec envS2Wins samplePaths fsInputOnly).2.2.2.2 2
      (by decide) (by decide)).1,
   ((strategy_controller_order brokenCodec envS2Wins samplePaths fsInputOnly).2.2.2.2 2
      (by decide) (by decide)).2⟩

/-- Claim C2 counterexample: with no resolvable executable and a valid
uncompressed input whose fresh compression succeeds, the session does NOT
emit the "cannot continue without Blender" diagnostic — it reports
(unverified) success after strategy 1 alone. -/
theorem no_executable_cex :
    envNoBlender.blender_path = none ∧
    fsInputOnly samplePaths.input = some sampleBlend ∧
    get_compression_type (some sampleBlend) = none ∧
    is_blend_file (some sampleBlend) = true ∧
    (repair_blend_file toyCodec envNoBlender samplePaths fsInputOnly).success = true ∧
    (repair_blend_file toyCodec envNoBlender samplePaths fsInputOnly).noBlenderDiag = false ∧
    (repair_blend_file toyCodec envNoBlender samplePaths fsInputOnly).attempted = [1] := by
  decide

/-- Claim C2 (amended): when no executable is resolved, the
executable-requiring strategies 2–4 are skipped entirely (never attempted,
never counted); the "cannot continue without executable" diagnostic is
emitted iff the input was accepted and strategy 1 failed; and when strategy 1
succeeds the session instead reports unverified success without the
diagnostic. -/
theorem no_executable_behavior (be : Backend) (env : SessionEnv) (P : Paths) (fs : Fs)
    (hb : env.blender_path = none) :
    ((repair_blend_file be env P fs).attempted = [] ∨
      (repair_blend_file be env P fs).attempted = [1]) ∧
    ((repair_blend_file be env P fs).noBlenderDiag = true ↔
      ∃ c, fs P.input = some c ∧ is_blend_file (some c) = true ∧
        (repair_compression be (backupStep P fs c) P.input P.output P.tmp).1 = false) ∧
    ((repair_blend_file be env P fs).success = true ↔
      ∃ c, fs P.input = some c ∧ is_blend_file (some c) = true ∧
        (repair_compression be (backupStep P fs c) P.input P.output P.tmp).1 = true) := by
  cases hin : fs P.input with
  | none => simp [repair_blend_file, hin]
  | some c =>
    by_cases hbf : is_blend_file (some c) = true
    · by_cases h1 : (repair_compression be (backupStep P fs c) P.input P.output P.tmp).1 =
          true <;>
        simp [repair_blend_file, sessionCore, hin, hbf, hb, h1]
    · simp [repair_blend_file, hin, hbf]

theorem no_executable_behavior_witness :
    (repair_blend_file brokenCodec envNoBlender samplePaths fsInputOnly).noBlenderDiag =
      true ∧
    (repair_blend_file brokenCodec envNoBlender samplePaths fsInputOnly).attempted = [1] :=
  ⟨((no_executable_behavior brokenCodec envNoBlender samplePaths fsInputOnly rfl).2.1).mpr
      ⟨sampleBlend, by decide, by decide, by decide⟩,
   ((no_executable_behavior brokenCodec envNoBlender samplePaths fsInputOnly rfl).1).resolve_left
      (by decide)⟩

theorem session_backup_value (be : Backend) (env : SessionEnv) (P : Paths) (fs : Fs)
    (h1 : P.output ≠ P.input ++ ".backup") (h2 : P.tmp ≠ P.input ++ ".backup")
    (h3 : P.sV ≠ P.input ++ ".backup") (h4 : P.s2p ≠ P.input ++ ".backup")
    (h5 : P.s3p ≠ P.input ++ ".backup") (h6 : P.s4p ≠ P.input ++ ".backup") :
    (repair_blend_file be env P fs).fs (P.input ++ ".backup") =
      if (fs (P.input ++ ".backup")).isSome then fs (P.input ++ ".backup")
      else
        match fs P.input with
        | none => none
        | some c => if is_blend_file (some c) then some c else none := by
  cases hin : fs P.input with
  | none =>
    by_cases hbk : (fs (P.input ++ ".backup")).isSome
    · simp [repair_blend_file, hin, hbk]
    · simp [repair_blend_file, hin, hbk, Option.not_isSome_iff_eq_none.mp hbk]
  | some c =>
    by_cases hbf : is_blend_file (some c) = true
    · simp only [repair_blend_file, hin]
      rw [if_pos hbf,
        sessionCore_frame be env P _ _ (Ne.symm h1) (Ne.symm h2) (Ne.symm h3) (Ne.symm h4)
          (Ne.symm h5) (Ne.symm h6),
        backupStep_self]
      simp [hbf]
    · by_cases hbk : (fs (P.input ++ ".backup")).isSome
      · simp [repair_blend_file, hin, hbf, hbk]
      · simp [repair_blend_file, hin, hbf, hbk, Option.not_isSome_iff_eq_none.mp hbk]

/-- Claim C6 counterexample: choosing the output path to be `<input>.backup`
makes the session overwrite a pre-existing backup: the backup bytes `[9, 9]`
are replaced by strategy 1's compressed output. -/
theorem backup_overwritten_cex :
    fsWithBackup ("in.blend" ++ ".backup") = some [9, 9] ∧
    clashPaths.output = "in.blend" ++ ".backup" ∧
    clashPaths.input = "in.blend" ∧
    (repair_blend_file toyCodec envNoBlender clashPaths fsWithBackup).fs
      ("in.blend" ++ ".backup") = some (zstdMagic ++ sampleBlend) ∧
    (zstdMagic ++ sampleBlend : Bytes) ≠ [9, 9] := by
  decide

/-- Claim C6 (amended): provided the chosen output path is not the backup
path itself (the temporaries are fresh, hence also distinct from it), the
backup file is created only if absent and never overwritten or deleted: its
final contents are the pre-existing bytes when it existed, the input's bytes
when it was created by this session, and running a second session against
the same input leaves the first session's backup bytes unchanged. -/
theorem backup_write_once (be be' : Backend) (env env' : SessionEnv) (P : Paths) (fs : Fs)
    (h1 : P.output ≠ P.input ++ ".backup") (h2 : P.tmp ≠ P.input ++ ".backup")
    (h3 : P.sV ≠ P.input ++ ".backup") (h4 : P.s2p ≠ P.input ++ ".backup")
    (h5 : P.s3p ≠ P.input ++ ".backup") (h6 : P.s4p ≠ P.input ++ ".backup")
    (g1 : P.output ≠ P.input) (g2 : P.tmp ≠ P.input) (g3 : P.sV ≠ P.input)
    (g4 : P.s2p ≠ P.input) (g5 : P.s3p ≠ P.input) (g6 : P.s4p ≠ P.input) :
    ((repair_blend_file be env P fs).fs (P.input ++ ".backup") =
      if (fs (P.input ++ ".backup")).isSome then fs (P.input ++ ".backup")
      else
        match fs P.input with
        | none => none
        | some c => if is_blend_file (some c) then some c else none) ∧
    ((repair_blend_file be' env' P (repair_blend_file be env P fs).fs).fs
        (P.input ++ ".backup") =
      (repair_blend_file be env P fs).fs (P.input ++ ".backup")) := by
  have A := session_backup_value be env P fs h1 h2 h3 h4 h5 h6
  have B := session_backup_value be' env' P (repair_blend_file be env P fs).fs
    h1 h2 h3 h4 h5 h6
  have hin2 : (repair_blend_file be env P fs).fs P.input = fs P.input :=
    session_frame be env P fs P.input (ne_backup_self P.input) (Ne.symm g1) (Ne.symm g2)
      (Ne.symm g3) (Ne.symm g4) (Ne.symm g5) (Ne.symm g6)
  refine ⟨A, ?_⟩
  rw [B, hin2, A]
  by_cases hbk : (fs (P.input ++ ".backup")).isSome
  · simp [hbk]
  · simp [hbk, ite_self]

theorem backup_write_once_witness :
    (repair_blend_file toyCodec envNoBlender samplePaths fsWithBackup).fs
      (samplePaths.input ++ ".backup") = some [9, 9] ∧
    (repair_blend_file toyCodec envS2Wins samplePaths
        (repair_blend_file toyCodec envNoBlender samplePaths fsWithBackup).fs).fs
      (samplePaths.input ++ ".backup") =
    (repair_blend_file toyCodec envNoBlender samplePaths fsWithBackup).fs
      (samplePaths.input ++ ".backup") := by
  have H := backup_write_once toyCodec toyCodec envNoBlender envS2Wins samplePaths
    fsWithBackup (by decide) (by decide) (by decide) (by decide) (by decide) (by decide)
    (by decide) (by decide) (by decide) (by decide) (by decide) (by decide)
  exact ⟨by rw [H.1]; decide, H.2⟩

/-- Claim C7 counterexample: strategy 1 fails after partially writing the
output path (compressor dies mid-stream), the session fails in total, and the
partial artifact `[1, 2, 3]` is still present at the output path — the failed
strategy did not remove it before signaling failure. -/
theorem leftover_artifact_cex :
    (repair_blend_file brokenCodec envNoBlender samplePaths fsInputOnly).success = false ∧
    fsInputOnly samplePaths.output = none ∧
    (repair_blend_file brokenCodec envNoBlender samplePaths fsInputOnly).fs
      samplePaths.output = some [1, 2, 3] := by
  decide

/-- Claim C7 (amended): a strategy that fails after partially writing the
output path does NOT remove the artifact (see the counterexample); what
holds is the frame property: every path other than the output path and the
backup path that was absent before the session is absent after it (all
scoped temporaries — strategy 1's temp file and the generated script files —
are always cleaned up), and every path other than the output, the backup and
the temporaries is untouched. -/
theorem session_cleanup (be : Backend) (env : SessionEnv) (P : Paths) (fs : Fs) :
    (∀ q, q ≠ P.output → q ≠ P.input ++ ".backup" → fs q = none →
      (repair_blend_file be env P fs).fs q = none) ∧
    (∀ q, q ≠ P.input ++ ".backup" → q ≠ P.output → q ≠ P.tmp → q ≠ P.sV → q ≠ P.s2p →
      q ≠ P.s3p → q ≠ P.s4p → (repair_blend_file be env P fs).fs q = fs q) :=
  ⟨fun q ho hb hq => session_absent be env P fs q ho hb hq,
   fun q hb ho ht hv h2 h3 h4 => session_frame be env P fs q hb ho ht hv h2 h3 h4⟩

theorem session_cleanup_witness :
    (repair_blend_file brokenCodec envNoBlender samplePaths fsInputOnly).fs "tmpfile" =
      none ∧
    (repair_blend_file brokenCodec envNoBlender samplePaths fsInputOnly).fs "in.blend" =
      fsInputOnly "in.blend" :=
  ⟨(session_cleanup brokenCodec envNoBlender samplePaths fsInputOnly).1 "tmpfile"
      (by decide) (by decide) (by decide),
   (session_cleanup brokenCodec envNoBlender samplePaths fsInputOnly).2 "in.blend"
      (by decide) (by decide) (by decide) (by decide) (by decide) (by decide) (by decide)⟩

end RepairBlend
